import Mathlib

/-!
Shallow embedding of the `max72xx` driver (package `max72xx`, files
`max72xx.go` and `registers.go`): a driver for chains of up to eight
MAX7219/7221 display controllers on a shared SPI bus with one
chip-select ("load"/strobe) line.

Bytes are modelled as `Nat` values below 256; every byte the driver
transmits is either an input `uint8` (assumed `< 256`), a constant, or a
clamped/wrapped value made explicit with `% 256`.  Bus activity is
modelled as a list of `BusEvent`s emitted during a call.  A Go `panic`
(out-of-bounds array index or slice bound) is modelled as `Option.none`.
-/

namespace Max72xx

/-- Register address constants from `registers.go`. -/
def REG_NOOP : Nat := 0x00

def REG_DIGIT0 : Nat := 0x01

def REG_DIGIT1 : Nat := 0x02

def REG_DIGIT2 : Nat := 0x03

def REG_DIGIT3 : Nat := 0x04

def REG_DIGIT4 : Nat := 0x05

def REG_DIGIT5 : Nat := 0x06

def REG_DIGIT6 : Nat := 0x07

def REG_DIGIT7 : Nat := 0x08

def REG_DECODE_MODE : Nat := 0x09

def REG_INTENSITY : Nat := 0x0A

def REG_SCANLIMIT : Nat := 0x0B

def REG_SHUTDOWN : Nat := 0x0C

def REG_DISPLAY_TEST : Nat := 0x0F

/-- `const maxNumberOfDevices = 8` in `max72xx.go`. -/
def maxNumberOfDevices : Nat := 8

deriving instance DecidableEq for Except

/-- The single error value `ErrInvalidData = errors.New("invalid data")`. -/
inductive Error where
  | invalidData
  deriving DecidableEq, Repr

/-- `type Command struct { Register byte; Data byte }`. -/
structure Command where
  register : Nat
  data : Nat
  deriving DecidableEq, Repr

/-- `type Config struct { NumberOfDigits uint8; Intensity uint8 }`. -/
structure Config where
  numberOfDigits : Nat
  intensity : Nat
  deriving DecidableEq, Repr

/-- Observable bus activity: a chip-select (strobe) transition or one
byte shifted out via `driver.bus.Transfer`. -/
inductive BusEvent where
  | csLow
  | transfer (b : Nat)
  | csHigh
  deriving DecidableEq, Repr

/-- `type Device struct`: the SPI bus and CS pin are external
collaborators, so only the stored chain length `numDevices` is state. -/
structure Device where
  numDevices : Nat
  deriving DecidableEq, Repr

/-- `NewDevice`: the guard in the source is
`if numDevices < 1 && numDevices > maxNumberOfDevices { numDevices = 1 }`,
translated verbatim (note the conjunction). -/
def NewDevice (numDevices : Nat) : Device :=
  let n := if numDevices < 1 ∧ numDevices > maxNumberOfDevices then 1 else numDevices
  { numDevices := n }

/-- The body of the `for _, d := range data` loop in `WriteCommandToAll`:
each `Command` contributes its register byte then its data byte. -/
def shiftOut : List Command → List BusEvent
  | [] => []
  | c :: rest => BusEvent.transfer c.register :: BusEvent.transfer c.data :: shiftOut rest

/-- `WriteCommandToAll`: rejects a frame whose length differs from the
chain length, otherwise pulls CS low, shifts out every register/data
pair in order, and releases CS high. -/
def WriteCommandToAll (driver : Device) (data : List Command) :
    Except Error Unit × List BusEvent :=
  if data.length ≠ driver.numDevices then
    (Except.error Error.invalidData, [])
  else
    (Except.ok (), BusEvent.csLow :: (shiftOut data ++ [BusEvent.csHigh]))

/-- The frame `WriteCommand` builds: a fixed 8-element scratch array
filled with no-op commands, position `deviceNum` overwritten with
`data`, then sliced to the first `numDevices` elements
(`tmp[:driver.numDevices]`). -/
def buildFrame (numDevices deviceNum : Nat) (data : Command) : List Command :=
  (((List.replicate maxNumberOfDevices (Command.mk REG_NOOP 0x00)).set deviceNum data).take
    numDevices)

/-- `WriteCommand`: rejects `deviceNum >= numDevices`; otherwise writes
into the fixed 8-element scratch buffer and slices it.  In Go,
`tmp[deviceNum] = data` panics when `deviceNum >= 8` and
`tmp[:driver.numDevices]` panics when `numDevices > 8`; both panics are
modelled as `none`.  (`List.set` and `List.take` are total in Lean, so
the panics must be made explicit.) -/
def WriteCommand (driver : Device) (deviceNum : Nat) (data : Command) :
    Option (Except Error Unit × List BusEvent) :=
  if deviceNum ≥ driver.numDevices then
    some (Except.error Error.invalidData, [])
  else if deviceNum ≥ maxNumberOfDevices then
    none
  else if driver.numDevices > maxNumberOfDevices then
    none
  else
    some (WriteCommandToAll driver (buildFrame driver.numDevices deviceNum data))

/-- `writeToAll`: sends the same command to every device in the chain
(`tmp := make([]Command, driver.numDevices)` filled with `data`). -/
def writeToAll (driver : Device) (data : Command) : Except Error Unit × List BusEvent :=
  WriteCommandToAll driver (List.replicate driver.numDevices data)

/-- `SetScanLimit`: writes `digitNumber - 1` (uint8 arithmetic, so a
wrapping decrement, written `(digitNumber + 255) % 256`) to the
scan-limit register on all devices. -/
def SetScanLimit (driver : Device) (digitNumber : Nat) : Except Error Unit × List BusEvent :=
  writeToAll driver (Command.mk REG_SCANLIMIT ((digitNumber + 255) % 256))

/-- `SetIntensity`: clamps the intensity to at most `0x0F`, then writes
it to the intensity register on all devices. -/
def SetIntensity (driver : Device) (intensity : Nat) : Except Error Unit × List BusEvent :=
  let intensity := if intensity > 0x0F then 0x0F else intensity
  writeToAll driver (Command.mk REG_INTENSITY intensity)

/-- `SetDecodeMode`: the `switch digitNumber` statement selecting one of
four decode-mode bit patterns. -/
def SetDecodeMode (driver : Device) (digitNumber : Nat) : Except Error Unit × List BusEvent :=
  match digitNumber with
  | 1 => writeToAll driver (Command.mk REG_DECODE_MODE 0x01)
  | 2 => writeToAll driver (Command.mk REG_DECODE_MODE 0x0F)
  | 3 => writeToAll driver (Command.mk REG_DECODE_MODE 0x0F)
  | 4 => writeToAll driver (Command.mk REG_DECODE_MODE 0x0F)
  | 8 => writeToAll driver (Command.mk REG_DECODE_MODE 0xFF)
  | _ => writeToAll driver (Command.mk REG_DECODE_MODE 0x00)

/-- `StartShutdownMode`: writes 0 to the shutdown register everywhere. -/
def StartShutdownMode (driver : Device) : Except Error Unit × List BusEvent :=
  writeToAll driver (Command.mk REG_SHUTDOWN 0x00)

/-- `StopShutdownMode`: writes 1 to the shutdown register everywhere. -/
def StopShutdownMode (driver : Device) : Except Error Unit × List BusEvent :=
  writeToAll driver (Command.mk REG_SHUTDOWN 0x01)

/-- `StartDisplayTest`: writes 1 to the display-test register everywhere. -/
def StartDisplayTest (driver : Device) : Except Error Unit × List BusEvent :=
  writeToAll driver (Command.mk REG_DISPLAY_TEST 0x01)

/-- `StopDisplayTest`: writes 0 to the display-test register everywhere. -/
def StopDisplayTest (driver : Device) : Except Error Unit × List BusEvent :=
  writeToAll driver (Command.mk REG_DISPLAY_TEST 0x00)

/-- `Configure`: configures the CS pin (no bus event), clears display
test, validates the digit count (1..8, else `ErrInvalidData`), sets scan
limit, sets intensity (a zero intensity is replaced by `0x01`), forces
BCD decoding for all 8 digits via `SetDecodeMode(0x08)`, and leaves
shutdown mode.  The emitted bus events of the sub-calls are
concatenated in program order. -/
def Configure (driver : Device) (config : Config) : Except Error Unit × List BusEvent :=
  let e1 := StopDisplayTest driver
  if config.numberOfDigits < 1 ∨ config.numberOfDigits > 8 then
    (Except.error Error.invalidData, e1.2)
  else
    let e2 := SetScanLimit driver config.numberOfDigits
    let intensity := if config.intensity = 0 then 0x01 else config.intensity
    let e3 := SetIntensity driver intensity
    let e4 := SetDecodeMode driver 0x08
    let e5 := StopShutdownMode driver
    (Except.ok (), e1.2 ++ e2.2 ++ e3.2 ++ e4.2 ++ e5.2)

/-- The spec's description of the decode-mode mapping (§4.1
`setDecodeMode`), stated independently of the switch in the source, for
comparison with `SetDecodeMode`. -/
def specDecodePattern (n : Nat) : Nat :=
  if n = 1 then 0x01
  else if 2 ≤ n ∧ n ≤ 4 then 0x0F
  else if n = 8 then 0xFF
  else 0x00

theorem shiftOut_eq_join (data : List Command) :
    shiftOut data =
      (data.map fun c => [BusEvent.transfer c.register, BusEvent.transfer c.data]).flatten := by
  induction data with
  | nil => rfl
  | cons c rest ih => simp [shiftOut, ih]

theorem shiftOut_length (data : List Command) : (shiftOut data).length = 2 * data.length := by
  induction data with
  | nil => rfl
  | cons c rest ih => simp [shiftOut, ih]; omega

theorem buildFrame_length (n i : Nat) (c : Command) (hn : n ≤ 8) :
    (buildFrame n i c).length = n := by
  simp [buildFrame, maxNumberOfDevices]
  omega

theorem buildFrame_getElem_self (n i : Nat) (c : Command) (hn : n ≤ 8) (hi : i < n) :
    (buildFrame n i c)[i]? = some c := by
  rw [buildFrame, List.getElem?_take, if_pos hi, List.getElem?_set_self]
  simp [maxNumberOfDevices]
  omega

theorem buildFrame_getElem_other (n i j : Nat) (c : Command) (hn : n ≤ 8) (hj : j < n)
    (hne : j ≠ i) :
    (buildFrame n i c)[j]? = some (Command.mk REG_NOOP 0x00) := by
  rw [buildFrame, List.getElem?_take, if_pos hj, List.getElem?_set_ne (Ne.symm hne),
    List.getElem?_replicate_of_lt]
  simp only [maxNumberOfDevices]
  omega

theorem writeCommandToAll_ok (d : Device) (data : List Command)
    (h : data.length = d.numDevices) :
    WriteCommandToAll d data =
      (Except.ok (), BusEvent.csLow :: (shiftOut data ++ [BusEvent.csHigh])) := by
  rw [WriteCommandToAll, if_neg]
  omega

theorem writeToAll_eq (d : Device) (c : Command) :
    writeToAll d c =
      (Except.ok (),
        BusEvent.csLow :: (shiftOut (List.replicate d.numDevices c) ++ [BusEvent.csHigh])) := by
  rw [writeToAll, writeCommandToAll_ok]
  exact List.length_replicate d.numDevices c

theorem writeCommand_ok (d : Device) (i : Nat) (c : Command) (h8 : d.numDevices ≤ 8)
    (hi : i < d.numDevices) :
    WriteCommand d i c =
      some (Except.ok (),
        BusEvent.csLow :: (shiftOut (buildFrame d.numDevices i c) ++ [BusEvent.csHigh])) := by
  rw [WriteCommand, if_neg (by omega), if_neg (by simp [maxNumberOfDevices]; omega),
    if_neg (by simp only [maxNumberOfDevices]; omega), writeCommandToAll_ok]
  exact buildFrame_length _ _ _ h8

/-- C1: `NewDevice` was claimed to clamp or reject an out-of-range chain
length (defaulting it to 1).  The source guard is
`numDevices < 1 && numDevices > maxNumberOfDevices`, a conjunction no
value satisfies, so every out-of-range length (0, 9, 255, ...) is stored
unchanged. -/
theorem C1_newDevice_keeps_invalid_length :
    (NewDevice 0).numDevices = 0 ∧ (NewDevice 9).numDevices = 9 ∧
      (NewDevice 255).numDevices = 255 ∧
      ∀ n : Nat, (NewDevice n).numDevices = n := by
  refine ⟨rfl, rfl, rfl, fun n => ?_⟩
  rw [NewDevice, if_neg]
  simp [maxNumberOfDevices]
  omega

/-- C2 counterexample: `Configure` on a 1-device chain with the invalid
digit count 0 returns the error, yet has already performed a full
strobed transmission (the display-test clear) — the claim that every
rejected call produces zero bus side effects is false for `Configure`. -/
theorem C2_configure_transmits_before_rejecting :
    (Configure (Device.mk 1) (Config.mk 0 5)).1 = Except.error Error.invalidData ∧
      (Configure (Device.mk 1) (Config.mk 0 5)).2 =
        [BusEvent.csLow, BusEvent.transfer 0x0F, BusEvent.transfer 0x00, BusEvent.csHigh] := by
  constructor <;> rfl

/-- C2 (amended): rejected `WriteCommand` and `WriteCommandToAll` calls
produce zero bus side effects, but a rejected `Configure` call has
already transmitted exactly the display-test-clear frame (the CS pin
mode setup and that one frame precede the digit-count check). -/
theorem C2_rejected_calls_bus_activity (d : Device) (data : List Command) (i : Nat)
    (c : Command) (cfg : Config) :
    ((WriteCommandToAll d data).1 = Except.error Error.invalidData →
        (WriteCommandToAll d data).2 = []) ∧
      (i ≥ d.numDevices → WriteCommand d i c = some (Except.error Error.invalidData, [])) ∧
      ((Configure d cfg).1 = Except.error Error.invalidData →
        (Configure d cfg).2 = (StopDisplayTest d).2) := by
  refine ⟨?_, ?_, ?_⟩
  · rw [WriteCommandToAll]
    split
    · intro _; rfl
    · intro h; exact absurd h (by simp)
  · intro h
    rw [WriteCommand, if_pos h]
  · rw [Configure]
    split
    · intro _; rfl
    · intro h; exact absurd h (by simp)

/-- C2 witness: the amended theorem applied to a 2-device chain, an
empty frame (length mismatch), device index 7, and digit count 0. -/
theorem C2_rejected_calls_bus_activity_witness :
    (WriteCommandToAll (Device.mk 2) []).2 = [] ∧
      WriteCommand (Device.mk 2) 7 (Command.mk 0x01 0x22) =
        some (Except.error Error.invalidData, []) ∧
      (Configure (Device.mk 2) (Config.mk 0 5)).2 = (StopDisplayTest (Device.mk 2)).2 :=
  ⟨(C2_rejected_calls_bus_activity (Device.mk 2) [] 7 (Command.mk 0x01 0x22)
      (Config.mk 0 5)).1 (by decide),
    (C2_rejected_calls_bus_activity (Device.mk 2) [] 7 (Command.mk 0x01 0x22)
      (Config.mk 0 5)).2.1 (by decide),
    (C2_rejected_calls_bus_activity (Device.mk 2) [] 7 (Command.mk 0x01 0x22)
      (Config.mk 0 5)).2.2 (by decide)⟩

/-- C6: `WriteCommandToAll` returns the error and transmits nothing
exactly when the frame length differs from the chain length; on a
matching length it transmits the frame (strobe low, every register/data
pair in order, strobe high) and returns no error. -/
theorem C6_frame_length_mismatch (d : Device) (data : List Command) :
    (data.length ≠ d.numDevices ↔
        WriteCommandToAll d data = (Except.error Error.invalidData, [])) ∧
      (data.length = d.numDevices →
        WriteCommandToAll d data =
          (Except.ok (), BusEvent.csLow :: (shiftOut data ++ [BusEvent.csHigh]))) := by
  constructor
  · constructor
    · intro h
      rw [WriteCommandToAll, if_pos h]
    · intro h hlen
      rw [writeCommandToAll_ok d data hlen] at h
      simp at h
  · exact writeCommandToAll_ok d data

/-- C6 witness: a 2-device chain rejects a 1-command frame and accepts a
2-command frame. -/
theorem C6_frame_length_mismatch_witness :
    WriteCommandToAll (Device.mk 2) [Command.mk 0x0A 0x03] =
        (Except.error Error.invalidData, []) ∧
      WriteCommandToAll (Device.mk 2) [Command.mk 0x0A 0x03, Command.mk 0x01 0x07] =
        (Except.ok (),
          BusEvent.csLow ::
            (shiftOut [Command.mk 0x0A 0x03, Command.mk 0x01 0x07] ++ [BusEvent.csHigh])) :=
  ⟨(C6_frame_length_mismatch (Device.mk 2) [Command.mk 0x0A 0x03]).1.mp (by decide),
    (C6_frame_length_mismatch (Device.mk 2)
      [Command.mk 0x0A 0x03, Command.mk 0x01 0x07]).2 (by decide)⟩

/-- C3: for every chain length in 1..8 and device index `i < n`,
`WriteCommand` builds a frame of exactly `n` command pairs with the
command at position `i` and the no-op pair everywhere else, and
transmits it; concretely, on a 2-device chain,
`WriteCommand 1 {register 0x04, data 0x5F}` transmits exactly
`[0x00, 0x00, 0x04, 0x5F]` bracketed by strobe-low and strobe-high. -/
theorem C3_writeCommand_pads_with_noops (n i : Nat) (c : Command) (_h1 : 1 ≤ n)
    (h2 : n ≤ 8) (h3 : i < n) :
    ((buildFrame n i c).length = n ∧
        (buildFrame n i c)[i]? = some c ∧
        (∀ j, j < n → j ≠ i → (buildFrame n i c)[j]? = some (Command.mk REG_NOOP 0x00)) ∧
        WriteCommand (Device.mk n) i c =
          some (Except.ok (),
            BusEvent.csLow :: (shiftOut (buildFrame n i c) ++ [BusEvent.csHigh]))) ∧
      WriteCommand (Device.mk 2) 1 (Command.mk REG_DIGIT3 0x5F) =
        some (Except.ok (),
          [BusEvent.csLow, BusEvent.transfer 0x00, BusEvent.transfer 0x00,
            BusEvent.transfer 0x04, BusEvent.transfer 0x5F, BusEvent.csHigh]) := by
  refine ⟨⟨buildFrame_length n i c h2, buildFrame_getElem_self n i c h2 h3,
    fun j hj hne => buildFrame_getElem_other n i j c h2 hj hne,
    writeCommand_ok (Device.mk n) i c h2 h3⟩, by decide⟩

/-- C3 witness: the general part at chain length 3, device index 1. -/
theorem C3_writeCommand_pads_with_noops_witness :
    (buildFrame 3 1 (Command.mk 0x09 0x55)).length = 3 ∧
      (buildFrame 3 1 (Command.mk 0x09 0x55))[1]? = some (Command.mk 0x09 0x55) ∧
      (∀ j, j < 3 → j ≠ 1 →
        (buildFrame 3 1 (Command.mk 0x09 0x55))[j]? = some (Command.mk REG_NOOP 0x00)) ∧
      WriteCommand (Device.mk 3) 1 (Command.mk 0x09 0x55) =
        some (Except.ok (),
          BusEvent.csLow ::
            (shiftOut (buildFrame 3 1 (Command.mk 0x09 0x55)) ++ [BusEvent.csHigh])) :=
  (C3_writeCommand_pads_with_noops 3 1 (Command.mk 0x09 0x55) (by decide) (by decide)
    (by decide)).1

/-- C4: a successful `WriteCommandToAll` of a frame whose length equals
the chain length emits strobe-low, then the flattened sequence
`register_0, data_0, ..., register_{N-1}, data_{N-1}` (2·N transfer
events), then strobe-high; and the register address constants have the
documented values. -/
theorem C4_wire_format (d : Device) (data : List Command) (h : data.length = d.numDevices) :
    (WriteCommandToAll d data =
        (Except.ok (),
          BusEvent.csLow ::
            ((data.map fun c => [BusEvent.transfer c.register, BusEvent.transfer c.data]).flatten
              ++ [BusEvent.csHigh])) ∧
        (shiftOut data).length = 2 * d.numDevices) ∧
      (REG_NOOP = 0x00 ∧ REG_DIGIT0 = 0x01 ∧ REG_DIGIT1 = 0x02 ∧ REG_DIGIT2 = 0x03 ∧
        REG_DIGIT3 = 0x04 ∧ REG_DIGIT4 = 0x05 ∧ REG_DIGIT5 = 0x06 ∧ REG_DIGIT6 = 0x07 ∧
        REG_DIGIT7 = 0x08 ∧ REG_DECODE_MODE = 0x09 ∧ REG_INTENSITY = 0x0A ∧
        REG_SCANLIMIT = 0x0B ∧ REG_SHUTDOWN = 0x0C ∧ REG_DISPLAY_TEST = 0x0F) := by
  refine ⟨⟨?_, ?_⟩, by decide⟩
  · rw [writeCommandToAll_ok d data h, shiftOut_eq_join]
  · rw [shiftOut_length, h]

/-- C4 witness: the wire format of a full 2-command frame on a 2-device
chain. -/
theorem C4_wire_format_witness :
    WriteCommandToAll (Device.mk 2) [Command.mk 0x0C 0x01, Command.mk 0x02 0x33] =
      (Except.ok (),
        BusEvent.csLow ::
          (([Command.mk 0x0C 0x01, Command.mk 0x02 0x33].map fun c =>
              [BusEvent.transfer c.register, BusEvent.transfer c.data]).flatten
            ++ [BusEvent.csHigh])) :=
  ((C4_wire_format (Device.mk 2) [Command.mk 0x0C 0x01, Command.mk 0x02 0x33]
    (by decide)).1).1

/-- C5: with the chain-length invariant (at most 8 devices),
`WriteCommand` at an index at or beyond the chain length fails with the
invalid-data error and performs no transfer (so it never falls back to
device 0), while any index below the chain length succeeds. -/
theorem C5_invalid_device_index (d : Device) (i : Nat) (c : Command)
    (h8 : d.numDevices ≤ 8) :
    (i ≥ d.numDevices → WriteCommand d i c = some (Except.error Error.invalidData, [])) ∧
      (i < d.numDevices →
        WriteCommand d i c =
          some (Except.ok (),
            BusEvent.csLow :: (shiftOut (buildFrame d.numDevices i c) ++ [BusEvent.csHigh]))) := by
  constructor
  · intro h
    rw [WriteCommand, if_pos h]
  · intro h
    exact writeCommand_ok d i c h8 h

/-- C5 witness: on a 2-device chain, index 2 is rejected with no bus
activity and index 0 succeeds. -/
theorem C5_invalid_device_index_witness :
    WriteCommand (Device.mk 2) 2 (Command.mk 0x01 0x08) =
        some (Except.error Error.invalidData, []) ∧
      WriteCommand (Device.mk 2) 0 (Command.mk 0x01 0x08) =
        some (Except.ok (),
          BusEvent.csLow ::
            (shiftOut (buildFrame 2 0 (Command.mk 0x01 0x08)) ++ [BusEvent.csHigh])) :=
  ⟨(C5_invalid_device_index (Device.mk 2) 2 (Command.mk 0x01 0x08) (by decide)).1
      (by decide),
    (C5_invalid_device_index (Device.mk 2) 0 (Command.mk 0x01 0x08) (by decide)).2
      (by decide)⟩

/-- C7: `SetDecodeMode n` writes exactly the pattern the spec's mapping
describes (`n=1` → 0x01; `n∈{2,3,4}` → 0x0F; `n=8` → 0xFF; anything else
→ 0x00) to the decode-mode register on every device, and the spec's
table `{0,1,2,3,4,5,8,9} → {0x00,0x01,0x0F,0x0F,0x0F,0x00,0xFF,0x00}`
holds. -/
theorem C7_decode_mode_mapping (d : Device) (n : Nat) :
    (SetDecodeMode d n = writeToAll d (Command.mk REG_DECODE_MODE (specDecodePattern n)) ∧
        (SetDecodeMode d n).1 = Except.ok () ∧
        (SetDecodeMode d n).2 =
          BusEvent.csLow ::
            (shiftOut (List.replicate d.numDevices
              (Command.mk REG_DECODE_MODE (specDecodePattern n))) ++ [BusEvent.csHigh])) ∧
      (specDecodePattern 0 = 0x00 ∧ specDecodePattern 1 = 0x01 ∧ specDecodePattern 2 = 0x0F ∧
        specDecodePattern 3 = 0x0F ∧ specDecodePattern 4 = 0x0F ∧ specDecodePattern 5 = 0x00 ∧
        specDecodePattern 8 = 0xFF ∧ specDecodePattern 9 = 0x00) := by
  have hmain : SetDecodeMode d n =
      writeToAll d (Command.mk REG_DECODE_MODE (specDecodePattern n)) := by
    match n with
    | 0 => rfl
    | 1 => rfl
    | 2 => rfl
    | 3 => rfl
    | 4 => rfl
    | 5 => rfl
    | 6 => rfl
    | 7 => rfl
    | 8 => rfl
    | (k + 9) =>
      show writeToAll d (Command.mk REG_DECODE_MODE 0x00) = _
      rw [specDecodePattern, if_neg (by omega), if_neg (by omega), if_neg (by omega)]
  refine ⟨⟨hmain, ?_, ?_⟩, by decide⟩
  · rw [hmain, writeToAll_eq]
  · rw [hmain, writeToAll_eq]

/-- C8: `SetIntensity v` writes `min v 0x0F` to the intensity register
on every device and never returns an error; in particular the inputs
`{0, 15, 16, 255}` produce register data `{0, 15, 15, 15}`. -/
theorem C8_intensity_clamped (d : Device) (v : Nat) :
    ((SetIntensity d v).1 = Except.ok () ∧
        SetIntensity d v = writeToAll d (Command.mk REG_INTENSITY (min v 0x0F)) ∧
        (SetIntensity d v).2 =
          BusEvent.csLow ::
            (shiftOut (List.replicate d.numDevices (Command.mk REG_INTENSITY (min v 0x0F))) ++
              [BusEvent.csHigh])) ∧
      (SetIntensity d 0 = writeToAll d (Command.mk REG_INTENSITY 0) ∧
        SetIntensity d 15 = writeToAll d (Command.mk REG_INTENSITY 15) ∧
        SetIntensity d 16 = writeToAll d (Command.mk REG_INTENSITY 15) ∧
        SetIntensity d 255 = writeToAll d (Command.mk REG_INTENSITY 15)) := by
  have hmin : (if v > 0x0F then 0x0F else v) = min v 0x0F := by
    split <;> omega
  have hmain : SetIntensity d v = writeToAll d (Command.mk REG_INTENSITY (min v 0x0F)) := by
    show writeToAll d (Command.mk REG_INTENSITY (if v > 0x0F then 0x0F else v)) = _
    rw [hmin]
  refine ⟨⟨?_, hmain, ?_⟩, rfl, rfl, rfl, rfl⟩
  · rw [hmain, writeToAll_eq]
  · rw [hmain, writeToAll_eq]

/-- C9: for a digit count in 1..8, `Configure` succeeds and its bus
activity is exactly: clear display-test, write scan limit
`digitCount - 1`, write intensity (zero replaced by 0x01), write
decode-mode 0xFF, write shutdown 1, in that order; for a digit count
outside 1..8 it returns the invalid-configuration error. -/
theorem C9_configure_sequence (d : Device) (cfg : Config) (h1 : 1 ≤ cfg.numberOfDigits)
    (h2 : cfg.numberOfDigits ≤ 8) :
    (Configure d cfg =
        (Except.ok (),
          (StopDisplayTest d).2 ++ (SetScanLimit d cfg.numberOfDigits).2 ++
            (SetIntensity d (if cfg.intensity = 0 then 0x01 else cfg.intensity)).2 ++
            (SetDecodeMode d 0x08).2 ++ (StopShutdownMode d).2) ∧
      (StopDisplayTest d).2 = (writeToAll d (Command.mk REG_DISPLAY_TEST 0x00)).2 ∧
      (SetScanLimit d cfg.numberOfDigits).2 =
        (writeToAll d (Command.mk REG_SCANLIMIT (cfg.numberOfDigits - 1))).2 ∧
      (SetDecodeMode d 0x08).2 = (writeToAll d (Command.mk REG_DECODE_MODE 0xFF)).2 ∧
      (StopShutdownMode d).2 = (writeToAll d (Command.mk REG_SHUTDOWN 0x01)).2) ∧
      ∀ cfg2 : Config, cfg2.numberOfDigits < 1 ∨ cfg2.numberOfDigits > 8 →
        (Configure d cfg2).1 = Except.error Error.invalidData := by
  have hsl : (cfg.numberOfDigits + 255) % 256 = cfg.numberOfDigits - 1 := by omega
  refine ⟨⟨?_, rfl, ?_, rfl, rfl⟩, ?_⟩
  · simp only [Configure]
    rw [if_neg (by omega)]
  · rw [SetScanLimit, hsl]
  · intro cfg2 hbad
    simp only [Configure]
    rw [if_pos hbad]

/-- C9 witness: a 2-device chain configured with 4 digits and caller
intensity 0 (replaced by 0x01), plus rejection of digit count 9. -/
theorem C9_configure_sequence_witness :
    Configure (Device.mk 2) (Config.mk 4 0) =
        (Except.ok (),
          (StopDisplayTest (Device.mk 2)).2 ++ (SetScanLimit (Device.mk 2) 4).2 ++
            (SetIntensity (Device.mk 2) 0x01).2 ++ (SetDecodeMode (Device.mk 2) 0x08).2 ++
            (StopShutdownMode (Device.mk 2)).2) ∧
      (Configure (Device.mk 2) (Config.mk 9 5)).1 = Except.error Error.invalidData :=
  ⟨((C9_configure_sequence (Device.mk 2) (Config.mk 4 0) (by decide) (by decide)).1).1,
    (C9_configure_sequence (Device.mk 2) (Config.mk 4 0) (by decide) (by decide)).2
      (Config.mk 9 5) (by decide)⟩

/-- C10: for a stored chain length in 1..8 and any index below it,
`WriteCommand` is total: the scratch-buffer index is in bounds, the
sliced frame has exactly the chain length (so the inner frame-length
check cannot fail), and the call returns success; the bound
`numDevices ≤ 8` is essential, since a 9-device chain makes the slice
`tmp[:9]` of the 8-element buffer panic (modelled as `none`). -/
theorem C10_writeCommand_total (d : Device) (i : Nat) (c : Command)
    (h1 : 1 ≤ d.numDevices) (h2 : d.numDevices ≤ 8) (h3 : i < d.numDevices) :
    (WriteCommand d i c =
        some (Except.ok (),
          BusEvent.csLow :: (shiftOut (buildFrame d.numDevices i c) ++ [BusEvent.csHigh])) ∧
      i < maxNumberOfDevices ∧
      (buildFrame d.numDevices i c).length = d.numDevices) ∧
      ∀ c2 : Command, WriteCommand (Device.mk 9) 5 c2 = none := by
  refine ⟨⟨writeCommand_ok d i c h2 h3, ?_, buildFrame_length _ _ _ h2⟩, fun c2 => rfl⟩
  simp only [maxNumberOfDevices]
  omega

/-- C10 witness: chain length 2, index 1 succeeds; chain length 9,
index 5 panics. -/
theorem C10_writeCommand_total_witness :
    WriteCommand (Device.mk 2) 1 (Command.mk 0x05 0x3C) =
        some (Except.ok (),
          BusEvent.csLow ::
            (shiftOut (buildFrame 2 1 (Command.mk 0x05 0x3C)) ++ [BusEvent.csHigh])) ∧
      WriteCommand (Device.mk 9) 5 (Command.mk 0x05 0x3C) = none :=
  ⟨((C10_writeCommand_total (Device.mk 2) 1 (Command.mk 0x05 0x3C) (by decide) (by decide)
      (by decide)).1).1,
    (C10_writeCommand_total (Device.mk 2) 1 (Command.mk 0x05 0x3C) (by decide) (by decide)
      (by decide)).2 (Command.mk 0x05 0x3C)⟩

end Max72xx
